import Mathlib

/-!
Verification of the PM5 BLE telemetry/command codec and the connection /
subscription logic of the pm5-connection-examples repository, as a shallow
embedding in Lean.

Byte sequences delivered in a `DataView` are modelled as `List Nat`; a byte
read by `getUint8` is always `< 256`, which is carried as a hypothesis where
a claim needs the bound.  JavaScript numbers produced by the fixed scale
factors (`* 0.01`, `* 0.1`, `* 0.001`) are modelled as exact rationals.
-/

namespace PM5

/-- `DataView`-style byte access: `getUint8`.  The parsers check the frame
length before every read, so the out-of-range default is never hit on a
reached path. -/
def byteAt (dv : List Nat) (i : Nat) : Nat := dv.getD i 0

/-- `readInt16LE` of `parsers.js`: `dataView.getUint16(offset, true)`,
i.e. the two bytes assembled little-endian. -/
def readInt16LE (dv : List Nat) (offset : Nat) : Nat :=
  byteAt dv offset + (byteAt dv (offset + 1)) <<< 8

/-- `readInt24LE` of `parsers.js`:
`getUint8(offset) + (getUint8(offset+1) << 8) + (getUint8(offset+2) << 16)`. -/
def readInt24LE (dv : List Nat) (offset : Nat) : Nat :=
  byteAt dv offset + (byteAt dv (offset + 1)) <<< 8 + (byteAt dv (offset + 2)) <<< 16

/-- Errors thrown by the parsing layer.  `format expected actual` is the
`Invalid data length ...: actual, expected expected` `Error`; `range` is the
`RangeError` a `DataView` access out of bounds raises (reachable only through
`parseMultiplexedData` on an empty frame, which reads byte 0 unconditionally). -/
inductive ParseError where
  | format (expected actual : Nat)
  | range
deriving DecidableEq

/-- The object literal returned by `parseGeneralStatus` (19-byte layout). -/
structure GeneralStatus where
  elapsed_time : ℚ
  distance : ℚ
  workout_type : Nat
  interval_type : Nat
  workout_state : Nat
  rowing_state : Nat
  stroke_state : Nat
  total_work_distance : Nat
  workout_duration : Nat
  workout_duration_type : Nat
  drag_factor : Nat
deriving DecidableEq

/-- The object literal returned by `parseAdditionalStatus` (16-byte layout). -/
structure AdditionalStatus where
  elapsed_time : ℚ
  speed : ℚ
  stroke_rate : Nat
  heart_rate : Nat
  current_pace : ℚ
  average_pace : ℚ
  rest_distance : Nat
  rest_time : ℚ
deriving DecidableEq

/-- The object literal returned by `parseStrokeData` (20-byte layout). -/
structure StrokeData where
  elapsed_time : ℚ
  distance : ℚ
  drive_length : ℚ
  drive_time : ℚ
  stroke_recovery_time : ℚ
  stroke_distance : ℚ
  peak_drive_force : ℚ
  average_drive_force : ℚ
  work_per_stroke : ℚ
  stroke_count : Nat
deriving DecidableEq

/-- The object literal returned by `parseSplitIntervalData` (18-byte layout). -/
structure SplitData where
  elapsed_time : ℚ
  distance : ℚ
  split_time : ℚ
  split_distance : ℚ
  rest_time : Nat
  rest_distance : Nat
  split_type : Nat
  split_number : Nat
deriving DecidableEq

/-- `const offset = isMultiplexed ? 1 : 0` shared by all four parsers. -/
def muxOffset (isMultiplexed : Bool) : Nat := if isMultiplexed then 1 else 0

/-- The field reads of `parseGeneralStatus`, at a given base offset. -/
def generalStatusAt (dv : List Nat) (off : Nat) : GeneralStatus where
  elapsed_time := (readInt24LE dv (off + 0) : ℚ) * (1 / 100)
  distance := (readInt24LE dv (off + 3) : ℚ) * (1 / 10)
  workout_type := byteAt dv (off + 6)
  interval_type := byteAt dv (off + 7)
  workout_state := byteAt dv (off + 8)
  rowing_state := byteAt dv (off + 9)
  stroke_state := byteAt dv (off + 10)
  total_work_distance := readInt24LE dv (off + 11)
  workout_duration := readInt24LE dv (off + 14)
  workout_duration_type := byteAt dv (off + 17)
  drag_factor := byteAt dv (off + 18)

/-- `parseGeneralStatus(dataView, isMultiplexed)` of `parsers.js`. -/
def parseGeneralStatus (dv : List Nat) (isMultiplexed : Bool) :
    Except ParseError GeneralStatus :=
  let offset := muxOffset isMultiplexed
  if dv.length < 19 + offset then .error (.format (19 + offset) dv.length)
  else .ok (generalStatusAt dv offset)

/-- The field reads of `parseAdditionalStatus`, at a given base offset. -/
def additionalStatusAt (dv : List Nat) (off : Nat) : AdditionalStatus where
  elapsed_time := (readInt24LE dv (off + 0) : ℚ) * (1 / 100)
  speed := (readInt16LE dv (off + 3) : ℚ) * (1 / 1000)
  stroke_rate := byteAt dv (off + 5)
  heart_rate := byteAt dv (off + 6)
  current_pace := (readInt16LE dv (off + 7) : ℚ) * (1 / 100)
  average_pace := (readInt16LE dv (off + 9) : ℚ) * (1 / 100)
  rest_distance := readInt16LE dv (off + 11)
  rest_time := (readInt24LE dv (off + 13) : ℚ) * (1 / 100)

/-- `parseAdditionalStatus(dataView, isMultiplexed)` of `parsers.js`. -/
def parseAdditionalStatus (dv : List Nat) (isMultiplexed : Bool) :
    Except ParseError AdditionalStatus :=
  let offset := muxOffset isMultiplexed
  if dv.length < 16 + offset then .error (.format (16 + offset) dv.length)
  else .ok (additionalStatusAt dv offset)

/-- The field reads of `parseStrokeData`, at a given base offset. -/
def strokeDataAt (dv : List Nat) (off : Nat) : StrokeData where
  elapsed_time := (readInt24LE dv (off + 0) : ℚ) * (1 / 100)
  distance := (readInt24LE dv (off + 3) : ℚ) * (1 / 10)
  drive_length := (byteAt dv (off + 6) : ℚ) * (1 / 100)
  drive_time := (byteAt dv (off + 7) : ℚ) * (1 / 100)
  stroke_recovery_time := (readInt16LE dv (off + 8) : ℚ) * (1 / 100)
  stroke_distance := (readInt16LE dv (off + 10) : ℚ) * (1 / 100)
  peak_drive_force := (readInt16LE dv (off + 12) : ℚ) * (1 / 10)
  average_drive_force := (readInt16LE dv (off + 14) : ℚ) * (1 / 10)
  work_per_stroke := (readInt16LE dv (off + 16) : ℚ) * (1 / 10)
  stroke_count := readInt16LE dv (off + 18)

/-- `parseStrokeData(dataView, isMultiplexed)` of `parsers.js`. -/
def parseStrokeData (dv : List Nat) (isMultiplexed : Bool) :
    Except ParseError StrokeData :=
  let offset := muxOffset isMultiplexed
  if dv.length < 20 + offset then .error (.format (20 + offset) dv.length)
  else .ok (strokeDataAt dv offset)

/-- The field reads of `parseSplitIntervalData`, at a given base offset. -/
def splitDataAt (dv : List Nat) (off : Nat) : SplitData where
  elapsed_time := (readInt24LE dv (off + 0) : ℚ) * (1 / 100)
  distance := (readInt24LE dv (off + 3) : ℚ) * (1 / 10)
  split_time := (readInt24LE dv (off + 6) : ℚ) * (1 / 10)
  split_distance := (readInt24LE dv (off + 9) : ℚ) * (1 / 10)
  rest_time := readInt16LE dv (off + 12)
  rest_distance := readInt16LE dv (off + 14)
  split_type := byteAt dv (off + 16)
  split_number := byteAt dv (off + 17)

/-- `parseSplitIntervalData(dataView, isMultiplexed)` of `parsers.js`. -/
def parseSplitIntervalData (dv : List Nat) (isMultiplexed : Bool) :
    Except ParseError SplitData :=
  let offset := muxOffset isMultiplexed
  if dv.length < 18 + offset then .error (.format (18 + offset) dv.length)
  else .ok (splitDataAt dv offset)

/-- The tagged object returned by `parseMultiplexedData`.  The `unknown`
branch of the source builds `{type: 'unknown', uuid, data: null}`; its `data`
slot is typed `Option (List Nat)` here so that both the `null` the code
stores and the payload bytes the spec talks about are expressible, and it is
always constructed as `none`. -/
inductive MuxData where
  | general_status (d : GeneralStatus)
  | additional_status (d : AdditionalStatus)
  | stroke_data (d : StrokeData)
  | split_data (d : SplitData)
  | unknown (uuid : Nat) (data : Option (List Nat))
deriving DecidableEq

/-- `parseMultiplexedData(dataView)` of `parsers.js`: switch on byte 0 and
delegate to the record parser with `isMultiplexed = true`.  On an empty frame
the source's unconditional `getUint8(0)` raises a `RangeError`. -/
def parseMultiplexedData (dv : List Nat) : Except ParseError MuxData :=
  match dv with
  | [] => .error .range
  | uuid :: _ =>
    if uuid = 0x31 then (parseGeneralStatus dv true).map .general_status
    else if uuid = 0x32 then (parseAdditionalStatus dv true).map .additional_status
    else if uuid = 0x35 then (parseStrokeData dv true).map .stroke_data
    else if uuid = 0x37 then (parseSplitIntervalData dv true).map .split_data
    else .ok (.unknown uuid none)

/-- Events delivered to the consumer through the assignable `onX` handler
slots of `PM5Device`.  `parseErrorEvent` is the parse-error event of the
spec's observer contract; the source never constructs it (decode failures
are only logged), which is exactly what the corresponding claim is about. -/
inductive ConsumerEvent where
  | workoutData (g : GeneralStatus)
  | additionalWorkoutData (a : AdditionalStatus)
  | strokeEvent (s : StrokeData)
  | splitEvent (s : SplitData)
  | disconnected
  | parseErrorEvent (expected actual : Nat)
deriving DecidableEq

/-- `console.error` / `console.warn` diagnostics produced inside the
notification handlers. -/
inductive LogEvent where
  | parseLog (e : ParseError)
deriving DecidableEq

/-- The state of the `PM5Device` class of `device.js` that the connection
and subscription claims depend on.  Each `...Listeners` field counts the
listeners registered on the corresponding rowing characteristic with
`addEventListener`; every call of `startRowingDataNotifications` registers
a freshly created closure, and distinct closures accumulate.  The `on...Set`
flags say whether the consumer assigned the corresponding nullable handler
slot. -/
structure RowingDevice where
  isConnected : Bool
  servicesPresent : Bool
  gsListeners : Nat
  addListeners : Nat
  strokeListeners : Nat
  splitListeners : Nat
  onDisconnectedSet : Bool
  onWorkoutDataSet : Bool
  onStrokeDataSet : Bool
  onSplitDataSet : Bool
deriving DecidableEq

/-- `startRowingDataNotifications` of `device.js`: `getCharacteristic`
throws when the rowing service is unavailable; otherwise the call starts
notifications on the four rowing characteristics and adds one freshly bound
event listener to each. -/
def startRowingDataNotifications (d : RowingDevice) : Except Unit RowingDevice :=
  if d.servicesPresent then
    .ok { d with gsListeners := d.gsListeners + 1
                 addListeners := d.addListeners + 1
                 strokeListeners := d.strokeListeners + 1
                 splitListeners := d.splitListeners + 1 }
  else .error ()

/-- `handleDisconnected` of `device.js`, run once per firing of the
transport's `gattserverdisconnected` event (the handler is registered
exactly once, in the constructor): it marks the device disconnected, drops
the cached services and characteristics, and invokes the consumer's
`onDisconnected` handler once when that handler is set.  Returns the new
state together with the consumer events emitted by the call. -/
def handleDisconnected (d : RowingDevice) : RowingDevice × List ConsumerEvent :=
  ({ d with isConnected := false, servicesPresent := false },
   if d.onDisconnectedSet then [.disconnected] else [])

/-- Delivery of one raw notification frame on the general-status
characteristic.  The transport delivers notifications only while the link
is up, so a disconnected device receives nothing.  Each registered listener
runs the source's handler body: parse inside `try`, forward the record to
`onWorkoutData` when that handler is set, and on a parse error log via
`console.error` and return normally.  Result: device state after the
dispatch, consumer events, log entries. -/
def notifyGeneralStatus (d : RowingDevice) (frame : List Nat) :
    RowingDevice × List ConsumerEvent × List LogEvent :=
  if d.isConnected then
    match parseGeneralStatus frame false with
    | .ok g =>
        (d, (if d.onWorkoutDataSet then List.replicate d.gsListeners (.workoutData g)
             else []), [])
    | .error e => (d, [], List.replicate d.gsListeners (.parseLog e))
  else (d, [], [])

/-- Delivery of one raw notification frame on the additional-status
characteristic; the handler body parses with `parseAdditionalStatus` and
forwards to `onWorkoutData`. -/
def notifyAdditionalStatus (d : RowingDevice) (frame : List Nat) :
    RowingDevice × List ConsumerEvent × List LogEvent :=
  if d.isConnected then
    match parseAdditionalStatus frame false with
    | .ok a =>
        (d, (if d.onWorkoutDataSet then
              List.replicate d.addListeners (.additionalWorkoutData a)
             else []), [])
    | .error e => (d, [], List.replicate d.addListeners (.parseLog e))
  else (d, [], [])

/-- Delivery of one raw notification frame on the stroke-data
characteristic; the handler body parses with `parseStrokeData` and forwards
to `onStrokeData`. -/
def notifyStrokeData (d : RowingDevice) (frame : List Nat) :
    RowingDevice × List ConsumerEvent × List LogEvent :=
  if d.isConnected then
    match parseStrokeData frame false with
    | .ok s =>
        (d, (if d.onStrokeDataSet then List.replicate d.strokeListeners (.strokeEvent s)
             else []), [])
    | .error e => (d, [], List.replicate d.strokeListeners (.parseLog e))
  else (d, [], [])

/-- Delivery of one raw notification frame on the split/interval
characteristic; the handler body parses with `parseSplitIntervalData` and
forwards to `onSplitData`. -/
def notifySplitData (d : RowingDevice) (frame : List Nat) :
    RowingDevice × List ConsumerEvent × List LogEvent :=
  if d.isConnected then
    match parseSplitIntervalData frame false with
    | .ok s =>
        (d, (if d.onSplitDataSet then List.replicate d.splitListeners (.splitEvent s)
             else []), [])
    | .error e => (d, [], List.replicate d.splitListeners (.parseLog e))
  else (d, [], [])

/-- The subscription state of the `PM5Device` variant (part_002) that
drives the generic characteristic monitor: the discovered notify-capable
characteristic uuids, the listeners currently attached (characteristic uuid
paired with the identity of the handler closure, in registration order;
every `subscribeToCharacteristic` call creates a fresh handler closure,
numbered here by `nextHandlerId`), and the stored
`activeCharacteristicSubscription`. -/
structure CharMonitor where
  nextHandlerId : Nat
  listeners : List (Nat × Nat)
  activeSub : Option (Nat × Nat)
  discovered : List Nat
  onCharacteristicDataSet : Bool
deriving DecidableEq

/-- `unsubscribeFromCharacteristic`: a no-op without an active
subscription; otherwise removes exactly the stored handler with
`removeEventListener`, stops notifications and clears the stored
subscription. -/
def unsubscribeFromCharacteristic (m : CharMonitor) : CharMonitor :=
  match m.activeSub with
  | none => m
  | some s =>
      { m with listeners := m.listeners.filter (fun l => decide (l ≠ s)),
               activeSub := none }

/-- `subscribeToCharacteristic(uuid)`: first unsubscribes any active
subscription, then looks the uuid up among the discovered characteristics
(throwing when absent), starts notifications, attaches a freshly created
handler closure and stores it as the active subscription. -/
def subscribeToCharacteristic (m : CharMonitor) (uuid : Nat) :
    Except Unit CharMonitor :=
  let m1 := if m.activeSub.isSome then unsubscribeFromCharacteristic m else m
  if uuid ∈ m1.discovered then
    .ok { m1 with
          listeners := m1.listeners ++ [(uuid, m1.nextHandlerId)],
          activeSub := some (uuid, m1.nextHandlerId),
          nextHandlerId := m1.nextHandlerId + 1 }
  else .error ()

/-- Number of records one incoming notification on characteristic `uuid`
delivers to the consumer: one per attached listener, provided the consumer
assigned the `onCharacteristicData` handler. -/
def charDeliveries (m : CharMonitor) (uuid : Nat) : Nat :=
  (m.listeners.filter (fun l => decide (l.1 = uuid))).length *
    (if m.onCharacteristicDataSet then 1 else 0)

/-- Reachable-state invariant of the characteristic monitor: the listeners
attached are exactly the one recorded in
`activeCharacteristicSubscription` (when there is one).  It holds for a
freshly connected device and is preserved by subscribe and unsubscribe. -/
def monitorInv (m : CharMonitor) : Prop :=
  m.listeners = (match m.activeSub with
                 | none => []
                 | some s => [s])

/-- Errors of the command/response frame decoder: truncation (with the
expected and actual lengths, mirroring the telemetry codec policy) or an
integrity-check failure. -/
inductive CommandError where
  | truncated (expected actual : Nat)
  | badChecksum (stored computed : Nat)
deriving DecidableEq

/-- Modelled from the spec: the CommandCodec lives in `csafe.js`, whose
`CSAFECommandBuilder` / `parseCSAFEResponse` are imported by the device
module but missing from the sources; §4.2 describes it as a
"length-prefixed, checksummed command frame format" whose frame is "an
opcode byte followed by parameter bytes".  This is the integrity check of
such a CSAFE-style frame: XOR over the opcode and the parameter bytes. -/
def frameChecksum (opcode : Nat) (params : List Nat) : Nat :=
  params.foldl (fun a b => a ^^^ b) opcode

/-- Modelled from the spec (missing `csafe.js`): encoding of a command
frame — the opcode byte, a one-byte length prefix, the parameter bytes and
a trailing checksum byte; every stored byte is reduced mod 256, as a byte
container stores it. -/
def encodeCommandFrame (opcode : Nat) (params : List Nat) : List Nat :=
  opcode % 256 :: params.length % 256 :: params.map (fun p => p % 256) ++
    [frameChecksum (opcode % 256) (params.map (fun p => p % 256)) % 256]

/-- Modelled from the spec (missing `csafe.js`): decoding of a
command/response frame — validate the minimum length, surfacing the
expected and actual lengths on truncation, read the opcode and the length
prefix, take that many parameter bytes, and verify the checksum. -/
def decodeCommandFrame (frame : List Nat) :
    Except CommandError (Nat × List Nat) :=
  if frame.length < 3 then .error (.truncated 3 frame.length)
  else
    let opcode := byteAt frame 0
    let len := byteAt frame 1
    if frame.length < 3 + len then .error (.truncated (3 + len) frame.length)
    else
      let params := (frame.drop 2).take len
      let stored := byteAt frame (2 + len)
      if stored = frameChecksum opcode params % 256 then .ok (opcode, params)
      else .error (.badChecksum stored (frameChecksum opcode params % 256))

/-- The character class of the regex `[^0-9a-fA-F]` whose matches
`sendControlBytes` strips from its input, by code point: 48–57 are `0`–`9`,
97–102 are `a`–`f`, 65–70 are `A`–`F`. -/
def isHexDigitChar (c : Char) : Bool :=
  (decide (48 ≤ c.toNat) && decide (c.toNat ≤ 57)) ||
  (decide (97 ≤ c.toNat) && decide (c.toNat ≤ 102)) ||
  (decide (65 ≤ c.toNat) && decide (c.toNat ≤ 70))

/-- `parseInt` of one hex digit, as used on each digit of a two-character
`substr` slice of the cleaned input (48 is the code point of `0`, 97 of
`a`, 65 of `A`). -/
def hexDigitVal (c : Char) : Nat :=
  if 48 ≤ c.toNat ∧ c.toNat ≤ 57 then c.toNat - 48
  else if 97 ≤ c.toNat ∧ c.toNat ≤ 102 then c.toNat - 97 + 10
  else if 65 ≤ c.toNat ∧ c.toNat ≤ 70 then c.toNat - 65 + 10
  else 0

/-- `sendControlBytes(hexString)` of the part_002/part_003 device variants,
up to the transport write: strip every non-hex character, reject an odd
number of remaining digits (`Hex string must have even number of
characters`), and otherwise build the `Uint8Array` whose cell `i` holds
`parseInt` of the digit pair starting at position `2*i` (a `Uint8Array`
store is mod 256).  Returns the byte sequence passed to `writeValue` on the
transmit characteristic. -/
def sendControlBytes (input : List Char) : Except Unit (List Nat) :=
  let cleanHex := input.filter isHexDigitChar
  if cleanHex.length % 2 ≠ 0 then .error ()
  else .ok ((List.range (cleanHex.length / 2)).map (fun i =>
    (16 * hexDigitVal (cleanHex.getD (2 * i) '0')
       + hexDigitVal (cleanHex.getD (2 * i + 1) '0')) % 256))

/-- The 19-byte example frame of the spec:
`64 00 00 E8 03 00 01 00 01 01 02 00 00 00 00 00 00 00 73`. -/
def exampleGeneralStatusBytes : List Nat :=
  [0x64, 0x00, 0x00, 0xE8, 0x03, 0x00, 0x01, 0x00, 0x01, 0x01,
   0x02, 0x00, 0x00, 0x00, 0x00, 0x00, 0x00, 0x00, 0x73]

/-- A freshly connected device: services cached, every consumer handler
assigned, no listeners registered yet. -/
def freshDevice : RowingDevice where
  isConnected := true
  servicesPresent := true
  gsListeners := 0
  addListeners := 0
  strokeListeners := 0
  splitListeners := 0
  onDisconnectedSet := true
  onWorkoutDataSet := true
  onStrokeDataSet := true
  onSplitDataSet := true

/-- A connected device with exactly one listener registered on the
general-status characteristic. -/
def oneGsListenerDevice : RowingDevice :=
  { freshDevice with gsListeners := 1 }

/-- The device state after two calls of `startRowingDataNotifications`
from `freshDevice`: two listeners on each rowing characteristic. -/
def doubledDevice : RowingDevice :=
  { freshDevice with gsListeners := 2, addListeners := 2, strokeListeners := 2,
                     splitListeners := 2 }

/-- A characteristic monitor straight after discovery: one discovered
notify-capable uuid (7), no subscription, handler assigned. -/
def sampleMonitor : CharMonitor where
  nextHandlerId := 0
  listeners := []
  activeSub := none
  discovered := [7]
  onCharacteristicDataSet := true

/-- The monitor state reached from an invariant state `m` by subscribing
to `uuid` twice in a row: two fresh handlers were allocated, only the
second one is still attached and recorded as the active subscription. -/
def subscribedTwiceMonitor (m : CharMonitor) (uuid : Nat) : CharMonitor where
  nextHandlerId := m.nextHandlerId + 2
  listeners := [(uuid, m.nextHandlerId + 1)]
  activeSub := some (uuid, m.nextHandlerId + 1)
  discovered := m.discovered
  onCharacteristicDataSet := m.onCharacteristicDataSet

/-- Claim C1: decoding the 19-byte frame
`64 00 00 E8 03 00 01 00 01 01 02 00 00 00 00 00 00 00 73` with
`parseGeneralStatus` and `isMultiplexed = false` succeeds and yields
elapsed_time 1.00 s, distance 100.0 m, workout_type 1, interval_type 0,
workout_state 1, rowing_state 1, stroke_state 2 and drag_factor 115, the
fields being read at the fixed little-endian offsets and scale factors of
the GeneralStatus layout. -/
theorem generalStatus_example_decode :
    parseGeneralStatus exampleGeneralStatusBytes false =
      .ok { elapsed_time := 1
            distance := 100
            workout_type := 1
            interval_type := 0
            workout_state := 1
            rowing_state := 1
            stroke_state := 2
            total_work_distance := 0
            workout_duration := 0
            workout_duration_type := 0
            drag_factor := 115 } := by
  show Except.ok (generalStatusAt exampleGeneralStatusBytes (muxOffset false)) = _
  simp only [generalStatusAt, readInt24LE, readInt16LE, byteAt, muxOffset,
    exampleGeneralStatusBytes, Except.ok.injEq, GeneralStatus.mk.injEq,
    Nat.shiftLeft_eq]
  norm_num

theorem byteAt_take (dv : List Nat) (n i : Nat) (h : i < n) :
    byteAt (dv.take n) i = byteAt dv i := by
  simp [byteAt, List.getD_eq_getElem?_getD, List.getElem?_take_of_lt h]

theorem readInt16LE_take (dv : List Nat) (n i : Nat) (h : i + 1 < n) :
    readInt16LE (dv.take n) i = readInt16LE dv i := by
  unfold readInt16LE
  rw [byteAt_take dv n i (by omega), byteAt_take dv n (i + 1) (by omega)]

theorem readInt24LE_take (dv : List Nat) (n i : Nat) (h : i + 2 < n) :
    readInt24LE (dv.take n) i = readInt24LE dv i := by
  unfold readInt24LE
  rw [byteAt_take dv n i (by omega), byteAt_take dv n (i + 1) (by omega),
      byteAt_take dv n (i + 2) (by omega)]

theorem byteAt_lt (dv : List Nat) (hdv : ∀ b ∈ dv, b < 256) (i : Nat) :
    byteAt dv i < 256 := by
  unfold byteAt
  rcases Nat.lt_or_ge i dv.length with hi | hi
  · rw [List.getD_eq_getElem?_getD, List.getElem?_eq_getElem hi]
    exact hdv _ (List.getElem_mem hi)
  · rw [List.getD_eq_getElem?_getD, List.getElem?_eq_none hi]
    norm_num

theorem byteAt_cons_succ (b : Nat) (p : List Nat) (i : Nat) :
    byteAt (b :: p) (i + 1) = byteAt p i := rfl

theorem readInt16LE_cons_succ (b : Nat) (p : List Nat) (i : Nat) :
    readInt16LE (b :: p) (i + 1) = readInt16LE p i := by
  unfold readInt16LE
  rw [byteAt_cons_succ, byteAt_cons_succ]

theorem readInt24LE_cons_succ (b : Nat) (p : List Nat) (i : Nat) :
    readInt24LE (b :: p) (i + 1) = readInt24LE p i := by
  unfold readInt24LE
  have h2 : i + 1 + 2 = (i + 2) + 1 := by omega
  rw [h2, byteAt_cons_succ, byteAt_cons_succ, byteAt_cons_succ]

theorem generalStatusAt_take (dv : List Nat) (n off : Nat) (h : off + 18 < n) :
    generalStatusAt (dv.take n) off = generalStatusAt dv off := by
  unfold generalStatusAt
  simp (disch := omega) only [readInt24LE_take, byteAt_take]

theorem additionalStatusAt_take (dv : List Nat) (n off : Nat) (h : off + 15 < n) :
    additionalStatusAt (dv.take n) off = additionalStatusAt dv off := by
  unfold additionalStatusAt
  simp (disch := omega) only [readInt24LE_take, readInt16LE_take, byteAt_take]

theorem strokeDataAt_take (dv : List Nat) (n off : Nat) (h : off + 19 < n) :
    strokeDataAt (dv.take n) off = strokeDataAt dv off := by
  unfold strokeDataAt
  simp (disch := omega) only [readInt24LE_take, readInt16LE_take, byteAt_take]

theorem splitDataAt_take (dv : List Nat) (n off : Nat) (h : off + 17 < n) :
    splitDataAt (dv.take n) off = splitDataAt dv off := by
  unfold splitDataAt
  simp (disch := omega) only [readInt24LE_take, readInt16LE_take, byteAt_take]

theorem generalStatusAt_cons (b : Nat) (p : List Nat) (off : Nat) :
    generalStatusAt (b :: p) (off + 1) = generalStatusAt p off := by
  unfold generalStatusAt
  have h : ∀ k : Nat, off + 1 + k = (off + k) + 1 := by omega
  simp only [h, readInt24LE_cons_succ, byteAt_cons_succ, Nat.add_zero]

theorem additionalStatusAt_cons (b : Nat) (p : List Nat) (off : Nat) :
    additionalStatusAt (b :: p) (off + 1) = additionalStatusAt p off := by
  unfold additionalStatusAt
  have h : ∀ k : Nat, off + 1 + k = (off + k) + 1 := by omega
  simp only [h, readInt24LE_cons_succ, readInt16LE_cons_succ, byteAt_cons_succ,
    Nat.add_zero]

theorem strokeDataAt_cons (b : Nat) (p : List Nat) (off : Nat) :
    strokeDataAt (b :: p) (off + 1) = strokeDataAt p off := by
  unfold strokeDataAt
  have h : ∀ k : Nat, off + 1 + k = (off + k) + 1 := by omega
  simp only [h, readInt24LE_cons_succ, readInt16LE_cons_succ, byteAt_cons_succ,
    Nat.add_zero]

theorem splitDataAt_cons (b : Nat) (p : List Nat) (off : Nat) :
    splitDataAt (b :: p) (off + 1) = splitDataAt p off := by
  unfold splitDataAt
  have h : ∀ k : Nat, off + 1 + k = (off + k) + 1 := by omega
  simp only [h, readInt24LE_cons_succ, readInt16LE_cons_succ, byteAt_cons_succ,
    Nat.add_zero]

theorem parseGeneralStatus_error_iff (dv : List Nat) (mux : Bool) :
    parseGeneralStatus dv mux = .error (.format (19 + muxOffset mux) dv.length) ↔
      dv.length < 19 + muxOffset mux := by
  by_cases h : dv.length < 19 + muxOffset mux <;> simp [parseGeneralStatus, h]

theorem parseGeneralStatus_ok_iff (dv : List Nat) (mux : Bool) :
    (∃ r, parseGeneralStatus dv mux = .ok r) ↔ 19 + muxOffset mux ≤ dv.length := by
  by_cases h : dv.length < 19 + muxOffset mux <;> (simp [parseGeneralStatus, h]; try omega)

theorem parseGeneralStatus_take (dv : List Nat) (mux : Bool)
    (h : 19 + muxOffset mux ≤ dv.length) :
    parseGeneralStatus dv mux = parseGeneralStatus (dv.take (19 + muxOffset mux)) mux := by
  unfold parseGeneralStatus
  rw [if_neg (by omega), if_neg (by simp [List.length_take]; try omega)]
  exact congrArg Except.ok (generalStatusAt_take dv (19 + muxOffset mux) _ (by omega)).symm

theorem parseAdditionalStatus_error_iff (dv : List Nat) (mux : Bool) :
    parseAdditionalStatus dv mux = .error (.format (16 + muxOffset mux) dv.length) ↔
      dv.length < 16 + muxOffset mux := by
  by_cases h : dv.length < 16 + muxOffset mux <;> simp [parseAdditionalStatus, h]

theorem parseAdditionalStatus_ok_iff (dv : List Nat) (mux : Bool) :
    (∃ r, parseAdditionalStatus dv mux = .ok r) ↔ 16 + muxOffset mux ≤ dv.length := by
  by_cases h : dv.length < 16 + muxOffset mux <;> (simp [parseAdditionalStatus, h]; try omega)

theorem parseAdditionalStatus_take (dv : List Nat) (mux : Bool)
    (h : 16 + muxOffset mux ≤ dv.length) :
    parseAdditionalStatus dv mux =
      parseAdditionalStatus (dv.take (16 + muxOffset mux)) mux := by
  unfold parseAdditionalStatus
  rw [if_neg (by omega), if_neg (by simp [List.length_take]; try omega)]
  exact congrArg Except.ok (additionalStatusAt_take dv (16 + muxOffset mux) _ (by omega)).symm

theorem parseStrokeData_error_iff (dv : List Nat) (mux : Bool) :
    parseStrokeData dv mux = .error (.format (20 + muxOffset mux) dv.length) ↔
      dv.length < 20 + muxOffset mux := by
  by_cases h : dv.length < 20 + muxOffset mux <;> simp [parseStrokeData, h]

theorem parseStrokeData_ok_iff (dv : List Nat) (mux : Bool) :
    (∃ r, parseStrokeData dv mux = .ok r) ↔ 20 + muxOffset mux ≤ dv.length := by
  by_cases h : dv.length < 20 + muxOffset mux <;> (simp [parseStrokeData, h]; try omega)

theorem parseStrokeData_take (dv : List Nat) (mux : Bool)
    (h : 20 + muxOffset mux ≤ dv.length) :
    parseStrokeData dv mux = parseStrokeData (dv.take (20 + muxOffset mux)) mux := by
  unfold parseStrokeData
  rw [if_neg (by omega), if_neg (by simp [List.length_take]; try omega)]
  exact congrArg Except.ok (strokeDataAt_take dv (20 + muxOffset mux) _ (by omega)).symm

theorem parseSplitIntervalData_error_iff (dv : List Nat) (mux : Bool) :
    parseSplitIntervalData dv mux = .error (.format (18 + muxOffset mux) dv.length) ↔
      dv.length < 18 + muxOffset mux := by
  by_cases h : dv.length < 18 + muxOffset mux <;> simp [parseSplitIntervalData, h]

theorem parseSplitIntervalData_ok_iff (dv : List Nat) (mux : Bool) :
    (∃ r, parseSplitIntervalData dv mux = .ok r) ↔ 18 + muxOffset mux ≤ dv.length := by
  by_cases h : dv.length < 18 + muxOffset mux <;> (simp [parseSplitIntervalData, h]; try omega)

theorem parseSplitIntervalData_take (dv : List Nat) (mux : Bool)
    (h : 18 + muxOffset mux ≤ dv.length) :
    parseSplitIntervalData dv mux =
      parseSplitIntervalData (dv.take (18 + muxOffset mux)) mux := by
  unfold parseSplitIntervalData
  rw [if_neg (by omega), if_neg (by simp [List.length_take]; try omega)]
  exact congrArg Except.ok (splitDataAt_take dv (18 + muxOffset mux) _ (by omega)).symm

/-- Claim C2: for every record type and every input, decoding fails with a
FormatError carrying the expected and actual lengths exactly when the input
is shorter than the record's minimum length (19, 16, 20, 18 bytes, plus one
when multiplexed); an input of at least the minimum length decodes
successfully, and trailing bytes beyond the fixed layout are ignored (the
result equals the result on the truncated input). -/
theorem parse_minLength_contract (dv : List Nat) (mux : Bool) :
    ((parseGeneralStatus dv mux = .error (.format (19 + muxOffset mux) dv.length) ↔
        dv.length < 19 + muxOffset mux) ∧
      ((∃ r, parseGeneralStatus dv mux = .ok r) ↔ 19 + muxOffset mux ≤ dv.length) ∧
      (19 + muxOffset mux ≤ dv.length →
        parseGeneralStatus dv mux = parseGeneralStatus (dv.take (19 + muxOffset mux)) mux)) ∧
    ((parseAdditionalStatus dv mux = .error (.format (16 + muxOffset mux) dv.length) ↔
        dv.length < 16 + muxOffset mux) ∧
      ((∃ r, parseAdditionalStatus dv mux = .ok r) ↔ 16 + muxOffset mux ≤ dv.length) ∧
      (16 + muxOffset mux ≤ dv.length →
        parseAdditionalStatus dv mux =
          parseAdditionalStatus (dv.take (16 + muxOffset mux)) mux)) ∧
    ((parseStrokeData dv mux = .error (.format (20 + muxOffset mux) dv.length) ↔
        dv.length < 20 + muxOffset mux) ∧
      ((∃ r, parseStrokeData dv mux = .ok r) ↔ 20 + muxOffset mux ≤ dv.length) ∧
      (20 + muxOffset mux ≤ dv.length →
        parseStrokeData dv mux = parseStrokeData (dv.take (20 + muxOffset mux)) mux)) ∧
    ((parseSplitIntervalData dv mux = .error (.format (18 + muxOffset mux) dv.length) ↔
        dv.length < 18 + muxOffset mux) ∧
      ((∃ r, parseSplitIntervalData dv mux = .ok r) ↔ 18 + muxOffset mux ≤ dv.length) ∧
      (18 + muxOffset mux ≤ dv.length →
        parseSplitIntervalData dv mux =
          parseSplitIntervalData (dv.take (18 + muxOffset mux)) mux)) :=
  ⟨⟨parseGeneralStatus_error_iff dv mux, parseGeneralStatus_ok_iff dv mux,
      parseGeneralStatus_take dv mux⟩,
    ⟨parseAdditionalStatus_error_iff dv mux, parseAdditionalStatus_ok_iff dv mux,
      parseAdditionalStatus_take dv mux⟩,
    ⟨parseStrokeData_error_iff dv mux, parseStrokeData_ok_iff dv mux,
      parseStrokeData_take dv mux⟩,
    ⟨parseSplitIntervalData_error_iff dv mux, parseSplitIntervalData_ok_iff dv mux,
      parseSplitIntervalData_take dv mux⟩⟩

/-- Witness for C2 at concrete inputs: the 19-byte example frame decodes as
a GeneralStatus and equals the decode of its own 19-byte truncation, while
the empty frame fails with the FormatError expecting 19 bytes. -/
theorem parse_minLength_contract_witness :
    (19 + muxOffset false ≤ exampleGeneralStatusBytes.length ∧
      parseGeneralStatus exampleGeneralStatusBytes false =
        parseGeneralStatus (exampleGeneralStatusBytes.take (19 + muxOffset false)) false) ∧
    parseGeneralStatus [] false = .error (.format (19 + muxOffset false) 0) :=
  ⟨⟨by decide,
      (parse_minLength_contract exampleGeneralStatusBytes false).1.2.2 (by decide)⟩,
    (parse_minLength_contract [] false).1.1.mpr (by decide)⟩

/-- Claim C9: every multi-byte telemetry field is read little-endian, and a
24-bit field is assembled from its three bytes with no sign extension:
`readInt24LE` returns exactly `b0 + 256*b1 + 65536*b2`, an unsigned value
below `2^24`; likewise `readInt16LE` returns `b0 + 256*b1`, below `2^16`. -/
theorem littleEndian_field_reads (dv : List Nat) (i : Nat)
    (h : ∀ b ∈ dv, b < 256) :
    readInt16LE dv i = byteAt dv i + 256 * byteAt dv (i + 1) ∧
    readInt16LE dv i < 2 ^ 16 ∧
    readInt24LE dv i = byteAt dv i + 256 * byteAt dv (i + 1) +
      65536 * byteAt dv (i + 2) ∧
    readInt24LE dv i < 2 ^ 24 := by
  have h0 := byteAt_lt dv h i
  have h1 := byteAt_lt dv h (i + 1)
  have h2 := byteAt_lt dv h (i + 2)
  unfold readInt16LE readInt24LE
  simp only [Nat.shiftLeft_eq]
  norm_num
  omega

/-- Witness for C9 on the example frame: its first 24-bit field assembles
little-endian to 100 and is below `2^24`. -/
theorem littleEndian_field_reads_witness :
    readInt24LE exampleGeneralStatusBytes 0 =
      byteAt exampleGeneralStatusBytes 0 + 256 * byteAt exampleGeneralStatusBytes 1 +
        65536 * byteAt exampleGeneralStatusBytes 2 ∧
    readInt24LE exampleGeneralStatusBytes 0 < 2 ^ 24 :=
  ⟨(littleEndian_field_reads exampleGeneralStatusBytes 0 (by decide)).2.2.1,
    (littleEndian_field_reads exampleGeneralStatusBytes 0 (by decide)).2.2.2⟩

theorem parseGeneralStatus_cons (b : Nat) (p : List Nat) (h : 19 ≤ p.length) :
    parseGeneralStatus (b :: p) true = parseGeneralStatus p false := by
  unfold parseGeneralStatus
  rw [if_neg (by simp [muxOffset]; try omega), if_neg (by simp [muxOffset]; try omega)]
  exact congrArg Except.ok (generalStatusAt_cons b p 0)

theorem parseAdditionalStatus_cons (b : Nat) (p : List Nat) (h : 16 ≤ p.length) :
    parseAdditionalStatus (b :: p) true = parseAdditionalStatus p false := by
  unfold parseAdditionalStatus
  rw [if_neg (by simp [muxOffset]; try omega), if_neg (by simp [muxOffset]; try omega)]
  exact congrArg Except.ok (additionalStatusAt_cons b p 0)

theorem parseStrokeData_cons (b : Nat) (p : List Nat) (h : 20 ≤ p.length) :
    parseStrokeData (b :: p) true = parseStrokeData p false := by
  unfold parseStrokeData
  rw [if_neg (by simp [muxOffset]; try omega), if_neg (by simp [muxOffset]; try omega)]
  exact congrArg Except.ok (strokeDataAt_cons b p 0)

theorem parseSplitIntervalData_cons (b : Nat) (p : List Nat) (h : 18 ≤ p.length) :
    parseSplitIntervalData (b :: p) true = parseSplitIntervalData p false := by
  unfold parseSplitIntervalData
  rw [if_neg (by simp [muxOffset]; try omega), if_neg (by simp [muxOffset]; try omega)]
  exact congrArg Except.ok (splitDataAt_cons b p 0)

/-- Claim C3: prepending the tag byte 0x31 to a 19-byte GeneralStatus
payload and decoding the 20-byte frame as a multiplexed envelope yields the
very record the direct non-multiplexed decode of the payload yields; and
the multiplexed decoder routes tags 0x32, 0x35, 0x37 to the
AdditionalStatus, StrokeData and SplitData decoders applied at payload
offset 1. -/
theorem mux_envelope_agrees (p : List Nat) (h : p.length = 19) :
    parseMultiplexedData (0x31 :: p) =
      (parseGeneralStatus p false).map MuxData.general_status ∧
    (∀ q : List Nat, parseMultiplexedData (0x32 :: q) =
      (parseAdditionalStatus (0x32 :: q) true).map MuxData.additional_status) ∧
    (∀ q : List Nat, parseMultiplexedData (0x35 :: q) =
      (parseStrokeData (0x35 :: q) true).map MuxData.stroke_data) ∧
    (∀ q : List Nat, parseMultiplexedData (0x37 :: q) =
      (parseSplitIntervalData (0x37 :: q) true).map MuxData.split_data) := by
  refine ⟨?_, fun q => rfl, fun q => rfl, fun q => rfl⟩
  show (parseGeneralStatus ((0x31 : Nat) :: p) true).map MuxData.general_status = _
  rw [parseGeneralStatus_cons _ _ (by omega)]

/-- Witness for C3 on the spec's example frame: tagging it with 0x31 and
decoding the envelope agrees with the direct decode. -/
theorem mux_envelope_agrees_witness :
    parseMultiplexedData (0x31 :: exampleGeneralStatusBytes) =
      (parseGeneralStatus exampleGeneralStatusBytes false).map MuxData.general_status :=
  (mux_envelope_agrees exampleGeneralStatusBytes (by decide)).1

/-- Counterexample to C4 as stated: on the multiplexed frame `00 AB`, whose
tag 0x00 is unknown, decoding succeeds, but the Unknown outcome carries
`data: null` — not the remaining payload byte `0xAB` that the claim says it
carries. -/
theorem mux_unknown_payload_dropped :
    parseMultiplexedData [0x00, 0xAB] = .ok (.unknown 0x00 none) ∧
    parseMultiplexedData [0x00, 0xAB] ≠ .ok (.unknown 0x00 (some [0xAB])) := by
  refine ⟨rfl, ?_⟩
  intro hc
  rw [show parseMultiplexedData [0x00, 0xAB] =
        Except.ok (MuxData.unknown 0x00 none) from rfl] at hc
  injection hc with h
  injection h with h1 h2
  exact Option.noConfusion h2

/-- Claim C4 (amended): a multiplexed frame whose tag byte is none of 0x31,
0x32, 0x35, 0x37 decodes successfully — no error is raised — to an Unknown
outcome carrying that tag; the remaining payload bytes are not carried
along (the outcome's data slot is null). -/
theorem mux_unknown_tag (t : Nat) (rest : List Nat)
    (h31 : t ≠ 0x31) (h32 : t ≠ 0x32) (h35 : t ≠ 0x35) (h37 : t ≠ 0x37) :
    parseMultiplexedData (t :: rest) = .ok (.unknown t none) := by
  simp [parseMultiplexedData, h31, h32, h35, h37]

/-- Witness for the amended C4 at tag 0x40. -/
theorem mux_unknown_tag_witness :
    parseMultiplexedData (0x40 :: [0x01, 0x02]) = .ok (.unknown 0x40 none) :=
  mux_unknown_tag 0x40 [0x01, 0x02] (by decide) (by decide) (by decide) (by decide)

/-- Counterexample to C5 as stated: two calls of
`startRowingDataNotifications` on a freshly connected device both succeed,
but the second is not a no-op — each call registers a fresh listener
closure on every rowing characteristic, so the single example notification
is delivered to the consumer twice, not once. -/
theorem subscribe_twice_double_delivery :
    (startRowingDataNotifications freshDevice).bind startRowingDataNotifications =
      .ok doubledDevice ∧
    (notifyGeneralStatus doubledDevice exampleGeneralStatusBytes).2.1.length = 2 ∧
    ¬ (notifyGeneralStatus doubledDevice exampleGeneralStatusBytes).2.1.length = 1 := by
  refine ⟨rfl, rfl, ?_⟩
  intro hc
  rw [show (notifyGeneralStatus doubledDevice
      exampleGeneralStatusBytes).2.1.length = 2 from rfl] at hc
  omega

theorem subscribe_ok_of_inv (m : CharMonitor) (uuid : Nat)
    (hInv : monitorInv m) (hdisc : uuid ∈ m.discovered) :
    subscribeToCharacteristic m uuid =
      .ok { nextHandlerId := m.nextHandlerId + 1,
            listeners := [(uuid, m.nextHandlerId)],
            activeSub := some (uuid, m.nextHandlerId),
            discovered := m.discovered,
            onCharacteristicDataSet := m.onCharacteristicDataSet } := by
  unfold subscribeToCharacteristic unsubscribeFromCharacteristic
  unfold monitorInv at hInv
  cases hsub : m.activeSub with
  | none =>
    rw [hsub] at hInv
    simp [hsub, hInv, hdisc]
  | some s =>
    rw [hsub] at hInv
    simp [hsub, hInv, hdisc, List.filter]

/-- Claim C5 (amended): while connected, calling
`subscribeToCharacteristic` twice for the same stream raises no error and
leaves exactly one active subscription with exactly one attached listener,
so a single incoming notification on that stream produces exactly one
delivery; the second call, however, is not a no-op returning the existing
handle — it tears the first subscription down and attaches a fresh handler
(and the rowing-stream variant `startRowingDataNotifications` is not
idempotent at all: a repeated call duplicates listeners). -/
theorem subscribe_twice_single_delivery (m : CharMonitor) (uuid : Nat)
    (hInv : monitorInv m) (hdisc : uuid ∈ m.discovered) :
    (subscribeToCharacteristic m uuid).bind
        (fun m1 => subscribeToCharacteristic m1 uuid) =
      .ok (subscribedTwiceMonitor m uuid) ∧
    ((subscribedTwiceMonitor m uuid).listeners.filter
        (fun l => decide (l.1 = uuid))).length = 1 ∧
    (m.onCharacteristicDataSet = true →
      charDeliveries (subscribedTwiceMonitor m uuid) uuid = 1) := by
  have h1 := subscribe_ok_of_inv m uuid hInv hdisc
  refine ⟨?_, by simp [subscribedTwiceMonitor], ?_⟩
  · rw [h1]
    exact subscribe_ok_of_inv
      { nextHandlerId := m.nextHandlerId + 1, listeners := [(uuid, m.nextHandlerId)],
        activeSub := some (uuid, m.nextHandlerId), discovered := m.discovered,
        onCharacteristicDataSet := m.onCharacteristicDataSet } uuid rfl hdisc
  · intro hset
    simp [charDeliveries, subscribedTwiceMonitor, hset]

/-- Witness for the amended C5 on a freshly discovered monitor and
stream 7. -/
theorem subscribe_twice_single_delivery_witness :
    (subscribeToCharacteristic sampleMonitor 7).bind
        (fun m1 => subscribeToCharacteristic m1 7) =
      .ok (subscribedTwiceMonitor sampleMonitor 7) ∧
    charDeliveries (subscribedTwiceMonitor sampleMonitor 7) 7 = 1 :=
  ⟨(subscribe_twice_single_delivery sampleMonitor 7 rfl (by decide)).1,
    (subscribe_twice_single_delivery sampleMonitor 7 rfl (by decide)).2.2 rfl⟩

/-- Claim C6: one firing of the transport's asynchronous link-loss signal
(the single registered `gattserverdisconnected` handler) emits exactly one
Disconnected event to the consumer, however many listeners are registered
on whichever streams; afterwards the session is disconnected, its cached
service/characteristic state is dropped, and no stream delivers any further
record until a fresh connect. -/
theorem linkLost_single_disconnect (d : RowingDevice)
    (hset : d.onDisconnectedSet = true) :
    (handleDisconnected d).2 = [.disconnected] ∧
    (handleDisconnected d).1.isConnected = false ∧
    (handleDisconnected d).1.servicesPresent = false ∧
    (∀ frame, (notifyGeneralStatus (handleDisconnected d).1 frame).2.1 = []) ∧
    (∀ frame, (notifyAdditionalStatus (handleDisconnected d).1 frame).2.1 = []) ∧
    (∀ frame, (notifyStrokeData (handleDisconnected d).1 frame).2.1 = []) ∧
    (∀ frame, (notifySplitData (handleDisconnected d).1 frame).2.1 = []) := by
  unfold handleDisconnected notifyGeneralStatus notifyAdditionalStatus
    notifyStrokeData notifySplitData
  simp [hset]

/-- Witness for C6 on a device with several active listeners: one
Disconnected event, and the example frame is no longer delivered. -/
theorem linkLost_single_disconnect_witness :
    (handleDisconnected doubledDevice).2 = [ConsumerEvent.disconnected] ∧
    (notifyGeneralStatus (handleDisconnected doubledDevice).1
        exampleGeneralStatusBytes).2.1 = [] :=
  ⟨(linkLost_single_disconnect _ rfl).1,
    (linkLost_single_disconnect _ rfl).2.2.2.1 exampleGeneralStatusBytes⟩

/-- Counterexample to C7 as stated: on a connected device with one
general-status listener and every consumer handler assigned, the malformed
1-byte frame `64` fails to decode, yet the dispatch emits no consumer event
at all — in particular no structured parse-error event; the failure is only
written to the console log. -/
theorem decode_failure_no_consumer_event :
    parseGeneralStatus [0x64] false = .error (.format 19 1) ∧
    (notifyGeneralStatus oneGsListenerDevice [0x64]).2.1 = [] ∧
    ConsumerEvent.parseErrorEvent 19 1 ∉
      (notifyGeneralStatus oneGsListenerDevice [0x64]).2.1 ∧
    (notifyGeneralStatus oneGsListenerDevice [0x64]).2.2 =
      [LogEvent.parseLog (.format 19 1)] := by
  refine ⟨rfl, rfl, ?_, rfl⟩
  intro hmem
  rw [show (notifyGeneralStatus oneGsListenerDevice [0x64]).2.1 = [] from rfl] at hmem
  exact (List.not_mem_nil _) hmem

theorem notifyGeneralStatus_failure (d : RowingDevice) (frame : List Nat)
    (hc : d.isConnected = true) (hshort : frame.length < 19) :
    notifyGeneralStatus d frame =
      (d, [], List.replicate d.gsListeners (.parseLog (.format 19 frame.length))) := by
  have herr : parseGeneralStatus frame false = .error (.format 19 frame.length) :=
    (parseGeneralStatus_error_iff frame false).mpr (by simp [muxOffset]; try omega)
  simp [notifyGeneralStatus, hc, herr]

theorem notifyAdditionalStatus_failure (d : RowingDevice) (frame : List Nat)
    (hc : d.isConnected = true) (hshort : frame.length < 16) :
    notifyAdditionalStatus d frame =
      (d, [], List.replicate d.addListeners (.parseLog (.format 16 frame.length))) := by
  have herr : parseAdditionalStatus frame false = .error (.format 16 frame.length) :=
    (parseAdditionalStatus_error_iff frame false).mpr (by simp [muxOffset]; try omega)
  simp [notifyAdditionalStatus, hc, herr]

theorem notifyStrokeData_failure (d : RowingDevice) (frame : List Nat)
    (hc : d.isConnected = true) (hshort : frame.length < 20) :
    notifyStrokeData d frame =
      (d, [], List.replicate d.strokeListeners (.parseLog (.format 20 frame.length))) := by
  have herr : parseStrokeData frame false = .error (.format 20 frame.length) :=
    (parseStrokeData_error_iff frame false).mpr (by simp [muxOffset]; try omega)
  simp [notifyStrokeData, hc, herr]

theorem notifySplitData_failure (d : RowingDevice) (frame : List Nat)
    (hc : d.isConnected = true) (hshort : frame.length < 18) :
    notifySplitData d frame =
      (d, [], List.replicate d.splitListeners (.parseLog (.format 18 frame.length))) := by
  have herr : parseSplitIntervalData frame false = .error (.format 18 frame.length) :=
    (parseSplitIntervalData_error_iff frame false).mpr (by simp [muxOffset]; try omega)
  simp [notifySplitData, hc, herr]

theorem notifyGeneralStatus_delivers (d : RowingDevice) (g : List Nat)
    (hc : d.isConnected = true) (hlen : 19 ≤ g.length)
    (hset : d.onWorkoutDataSet = true) :
    ((notifyGeneralStatus d g).2.1).length = d.gsListeners := by
  obtain ⟨r, hr⟩ := (parseGeneralStatus_ok_iff g false).mpr (by simp [muxOffset]; try omega)
  simp [notifyGeneralStatus, hc, hr, hset]

theorem notifyAdditionalStatus_delivers (d : RowingDevice) (g : List Nat)
    (hc : d.isConnected = true) (hlen : 16 ≤ g.length)
    (hset : d.onWorkoutDataSet = true) :
    ((notifyAdditionalStatus d g).2.1).length = d.addListeners := by
  obtain ⟨r, hr⟩ := (parseAdditionalStatus_ok_iff g false).mpr (by simp [muxOffset]; try omega)
  simp [notifyAdditionalStatus, hc, hr, hset]

theorem notifyStrokeData_delivers (d : RowingDevice) (g : List Nat)
    (hc : d.isConnected = true) (hlen : 20 ≤ g.length)
    (hset : d.onStrokeDataSet = true) :
    ((notifyStrokeData d g).2.1).length = d.strokeListeners := by
  obtain ⟨r, hr⟩ := (parseStrokeData_ok_iff g false).mpr (by simp [muxOffset]; try omega)
  simp [notifyStrokeData, hc, hr, hset]

theorem notifySplitData_delivers (d : RowingDevice) (g : List Nat)
    (hc : d.isConnected = true) (hlen : 18 ≤ g.length)
    (hset : d.onSplitDataSet = true) :
    ((notifySplitData d g).2.1).length = d.splitListeners := by
  obtain ⟨r, hr⟩ := (parseSplitIntervalData_ok_iff g false).mpr (by simp [muxOffset]; try omega)
  simp [notifySplitData, hc, hr, hset]

/-- Claim C7 (amended): on each of the four rowing streams, a notification
whose decode fails is recovered locally — the dispatch returns normally (no
exception escapes the handler), the device state, and with it every other
stream, is unchanged, one console-error log is written per listener
registered on that stream, and subsequent well-formed notifications, on the
same stream and on every other stream, are still decoded and delivered to
every registered listener.  No structured parse-error event is emitted to
the consumer; the failure is only logged. -/
theorem decode_failure_recovered (d : RowingDevice) (frame : List Nat)
    (hc : d.isConnected = true) :
    (frame.length < 19 →
      (notifyGeneralStatus d frame).1 = d ∧
      (notifyGeneralStatus d frame).2.1 = [] ∧
      (notifyGeneralStatus d frame).2.2 =
        List.replicate d.gsListeners (.parseLog (.format 19 frame.length)) ∧
      (∀ g : List Nat, 19 ≤ g.length → d.onWorkoutDataSet = true →
        ((notifyGeneralStatus (notifyGeneralStatus d frame).1 g).2.1).length =
          d.gsListeners) ∧
      (∀ g : List Nat, 16 ≤ g.length → d.onWorkoutDataSet = true →
        ((notifyAdditionalStatus (notifyGeneralStatus d frame).1 g).2.1).length =
          d.addListeners) ∧
      (∀ g : List Nat, 20 ≤ g.length → d.onStrokeDataSet = true →
        ((notifyStrokeData (notifyGeneralStatus d frame).1 g).2.1).length =
          d.strokeListeners) ∧
      (∀ g : List Nat, 18 ≤ g.length → d.onSplitDataSet = true →
        ((notifySplitData (notifyGeneralStatus d frame).1 g).2.1).length =
          d.splitListeners)) ∧
    (frame.length < 16 →
      (notifyAdditionalStatus d frame).1 = d ∧
      (notifyAdditionalStatus d frame).2.1 = [] ∧
      (notifyAdditionalStatus d frame).2.2 =
        List.replicate d.addListeners (.parseLog (.format 16 frame.length)) ∧
      (∀ g : List Nat, 19 ≤ g.length → d.onWorkoutDataSet = true →
        ((notifyGeneralStatus (notifyAdditionalStatus d frame).1 g).2.1).length =
          d.gsListeners) ∧
      (∀ g : List Nat, 16 ≤ g.length → d.onWorkoutDataSet = true →
        ((notifyAdditionalStatus (notifyAdditionalStatus d frame).1 g).2.1).length =
          d.addListeners) ∧
      (∀ g : List Nat, 20 ≤ g.length → d.onStrokeDataSet = true →
        ((notifyStrokeData (notifyAdditionalStatus d frame).1 g).2.1).length =
          d.strokeListeners) ∧
      (∀ g : List Nat, 18 ≤ g.length → d.onSplitDataSet = true →
        ((notifySplitData (notifyAdditionalStatus d frame).1 g).2.1).length =
          d.splitListeners)) ∧
    (frame.length < 20 →
      (notifyStrokeData d frame).1 = d ∧
      (notifyStrokeData d frame).2.1 = [] ∧
      (notifyStrokeData d frame).2.2 =
        List.replicate d.strokeListeners (.parseLog (.format 20 frame.length)) ∧
      (∀ g : List Nat, 19 ≤ g.length → d.onWorkoutDataSet = true →
        ((notifyGeneralStatus (notifyStrokeData d frame).1 g).2.1).length =
          d.gsListeners) ∧
      (∀ g : List Nat, 16 ≤ g.length → d.onWorkoutDataSet = true →
        ((notifyAdditionalStatus (notifyStrokeData d frame).1 g).2.1).length =
          d.addListeners) ∧
      (∀ g : List Nat, 20 ≤ g.length → d.onStrokeDataSet = true →
        ((notifyStrokeData (notifyStrokeData d frame).1 g).2.1).length =
          d.strokeListeners) ∧
      (∀ g : List Nat, 18 ≤ g.length → d.onSplitDataSet = true →
        ((notifySplitData (notifyStrokeData d frame).1 g).2.1).length =
          d.splitListeners)) ∧
    (frame.length < 18 →
      (notifySplitData d frame).1 = d ∧
      (notifySplitData d frame).2.1 = [] ∧
      (notifySplitData d frame).2.2 =
        List.replicate d.splitListeners (.parseLog (.format 18 frame.length)) ∧
      (∀ g : List Nat, 19 ≤ g.length → d.onWorkoutDataSet = true →
        ((notifyGeneralStatus (notifySplitData d frame).1 g).2.1).length =
          d.gsListeners) ∧
      (∀ g : List Nat, 16 ≤ g.length → d.onWorkoutDataSet = true →
        ((notifyAdditionalStatus (notifySplitData d frame).1 g).2.1).length =
          d.addListeners) ∧
      (∀ g : List Nat, 20 ≤ g.length → d.onStrokeDataSet = true →
        ((notifyStrokeData (notifySplitData d frame).1 g).2.1).length =
          d.strokeListeners) ∧
      (∀ g : List Nat, 18 ≤ g.length → d.onSplitDataSet = true →
        ((notifySplitData (notifySplitData d frame).1 g).2.1).length =
          d.splitListeners)) := by
  refine ⟨fun hs => ?_, fun hs => ?_, fun hs => ?_, fun hs => ?_⟩
  · have hfail := notifyGeneralStatus_failure d frame hc hs
    rw [hfail]
    exact ⟨rfl, rfl, rfl,
      fun g hg hset => notifyGeneralStatus_delivers d g hc hg hset,
      fun g hg hset => notifyAdditionalStatus_delivers d g hc hg hset,
      fun g hg hset => notifyStrokeData_delivers d g hc hg hset,
      fun g hg hset => notifySplitData_delivers d g hc hg hset⟩
  · have hfail := notifyAdditionalStatus_failure d frame hc hs
    rw [hfail]
    exact ⟨rfl, rfl, rfl,
      fun g hg hset => notifyGeneralStatus_delivers d g hc hg hset,
      fun g hg hset => notifyAdditionalStatus_delivers d g hc hg hset,
      fun g hg hset => notifyStrokeData_delivers d g hc hg hset,
      fun g hg hset => notifySplitData_delivers d g hc hg hset⟩
  · have hfail := notifyStrokeData_failure d frame hc hs
    rw [hfail]
    exact ⟨rfl, rfl, rfl,
      fun g hg hset => notifyGeneralStatus_delivers d g hc hg hset,
      fun g hg hset => notifyAdditionalStatus_delivers d g hc hg hset,
      fun g hg hset => notifyStrokeData_delivers d g hc hg hset,
      fun g hg hset => notifySplitData_delivers d g hc hg hset⟩
  · have hfail := notifySplitData_failure d frame hc hs
    rw [hfail]
    exact ⟨rfl, rfl, rfl,
      fun g hg hset => notifyGeneralStatus_delivers d g hc hg hset,
      fun g hg hset => notifyAdditionalStatus_delivers d g hc hg hset,
      fun g hg hset => notifyStrokeData_delivers d g hc hg hset,
      fun g hg hset => notifySplitData_delivers d g hc hg hset⟩

/-- Witness for the amended C7: the 1-byte frame `64` (shorter than every
record) is recovered on each stream of the one-listener device, and after a
failure on the stroke stream the example general-status frame still
delivers one record. -/
theorem decode_failure_recovered_witness :
    (notifyGeneralStatus oneGsListenerDevice [0x64]).1 = oneGsListenerDevice ∧
    (notifyAdditionalStatus oneGsListenerDevice [0x64]).2.1 = [] ∧
    (notifyStrokeData oneGsListenerDevice [0x64]).1 = oneGsListenerDevice ∧
    (notifySplitData oneGsListenerDevice [0x64]).2.1 = [] ∧
    ((notifyGeneralStatus (notifyStrokeData oneGsListenerDevice [0x64]).1
        exampleGeneralStatusBytes).2.1).length = oneGsListenerDevice.gsListeners :=
  ⟨((decode_failure_recovered oneGsListenerDevice [0x64] rfl).1 (by decide)).1,
    ((decode_failure_recovered oneGsListenerDevice [0x64] rfl).2.1 (by decide)).2.1,
    ((decode_failure_recovered oneGsListenerDevice [0x64] rfl).2.2.1 (by decide)).1,
    ((decode_failure_recovered oneGsListenerDevice [0x64] rfl).2.2.2 (by decide)).2.1,
    ((decode_failure_recovered oneGsListenerDevice [0x64] rfl).2.2.1 (by decide)).2.2.2.1
      exampleGeneralStatusBytes (by decide) rfl⟩

theorem map_mod_256_eq (l : List Nat) (h : ∀ p ∈ l, p < 256) :
    l.map (fun p => p % 256) = l := by
  induction l with
  | nil => rfl
  | cons a t ih =>
    simp only [List.map_cons]
    rw [Nat.mod_eq_of_lt (h a (List.mem_cons_self a t)),
        ih (fun p hm => h p (List.mem_cons_of_mem a hm))]

/-- Claim C8 (spec-modelled CommandCodec): encoding a command and decoding
the exact bytes that were transmitted reproduces the opcode and the
parameter bytes the caller supplied, for every opcode byte and every
parameter list a one-byte length prefix can carry. -/
theorem commandFrame_roundTrip (opcode : Nat) (params : List Nat)
    (hop : opcode < 256) (hlen : params.length < 256)
    (hp : ∀ p ∈ params, p < 256) :
    decodeCommandFrame (encodeCommandFrame opcode params) = .ok (opcode, params) := by
  have hmap := map_mod_256_eq params hp
  have hopm : opcode % 256 = opcode := Nat.mod_eq_of_lt hop
  have hlenm : params.length % 256 = params.length := Nat.mod_eq_of_lt hlen
  have hframe : encodeCommandFrame opcode params =
      opcode :: params.length :: params ++ [frameChecksum opcode params % 256] := by
    unfold encodeCommandFrame
    rw [hmap, hopm, hlenm]
  rw [hframe]
  have hlenf : (opcode :: params.length :: params ++
      [frameChecksum opcode params % 256]).length = params.length + 3 := by simp
  have hb0 : byteAt (opcode :: params.length :: params ++
      [frameChecksum opcode params % 256]) 0 = opcode := rfl
  have hb1 : byteAt (opcode :: params.length :: params ++
      [frameChecksum opcode params % 256]) 1 = params.length := rfl
  have hdrop : (opcode :: params.length :: params ++
      [frameChecksum opcode params % 256]).drop 2 =
      params ++ [frameChecksum opcode params % 256] := rfl
  have htake : (params ++ [frameChecksum opcode params % 256]).take params.length =
      params := List.take_left params [frameChecksum opcode params % 256]
  have hstored : byteAt (opcode :: params.length :: params ++
      [frameChecksum opcode params % 256]) (2 + params.length) =
      frameChecksum opcode params % 256 := by
    have h1 : 2 + params.length = params.length + 1 + 1 := by omega
    rw [show (opcode :: params.length :: params ++
        [frameChecksum opcode params % 256]) =
        opcode :: params.length :: (params ++ [frameChecksum opcode params % 256])
      from by simp, h1, byteAt_cons_succ, byteAt_cons_succ]
    unfold byteAt
    rw [List.getD_eq_getElem?_getD, List.getElem?_append_right (Nat.le_refl _)]
    simp
  unfold decodeCommandFrame
  simp only [hlenf, hb0, hb1, hdrop, htake, hstored]
  rw [if_neg (by omega), if_neg (by omega)]
  simp

/-- Witness for C8: the frame encoding opcode 0x80 with parameters 01 02
decodes back to exactly that command. -/
theorem commandFrame_roundTrip_witness :
    decodeCommandFrame (encodeCommandFrame 0x80 [0x01, 0x02]) =
      .ok (0x80, [0x01, 0x02]) :=
  commandFrame_roundTrip 0x80 [0x01, 0x02] (by decide) (by decide) (by decide)

theorem hexDigitVal_lt (c : Char) : hexDigitVal c < 16 := by
  unfold hexDigitVal
  split_ifs <;> omega

/-- Claim C10: `sendControlBytes` first strips every character that is not
a hex digit; it raises an error exactly when an odd number of hex digits
remains; otherwise it writes exactly n/2 bytes to the transmit
characteristic, byte i being the value of the i-th pair of hex digits — so
the bytes sent depend on the hex digits of the input alone, independent of
separators or whitespace. -/
theorem sendControlBytes_contract (input : List Char) :
    (sendControlBytes input = .error () ↔
      (input.filter isHexDigitChar).length % 2 = 1) ∧
    ((input.filter isHexDigitChar).length % 2 = 0 →
      ∃ bytes, sendControlBytes input = .ok bytes ∧
        bytes.length = (input.filter isHexDigitChar).length / 2 ∧
        ∀ i, i < bytes.length →
          bytes.getD i 0 =
            16 * hexDigitVal ((input.filter isHexDigitChar).getD (2 * i) '0') +
              hexDigitVal ((input.filter isHexDigitChar).getD (2 * i + 1) '0')) ∧
    sendControlBytes input = sendControlBytes (input.filter isHexDigitChar) := by
  refine ⟨?_, ?_, ?_⟩
  · by_cases h : (input.filter isHexDigitChar).length % 2 = 0 <;>
      (simp [sendControlBytes, h]; try omega)
  · intro h
    refine ⟨(List.range ((input.filter isHexDigitChar).length / 2)).map (fun i =>
      (16 * hexDigitVal ((input.filter isHexDigitChar).getD (2 * i) '0')
         + hexDigitVal ((input.filter isHexDigitChar).getD (2 * i + 1) '0')) % 256),
      ?_, by simp, ?_⟩
    · simp [sendControlBytes, h]
    · intro i hi
      simp only [List.length_map, List.length_range] at hi
      have hlt1 : 2 * i < (input.filter isHexDigitChar).length := by omega
      have hlt2 : 2 * i + 1 < (input.filter isHexDigitChar).length := by omega
      have hv1 := hexDigitVal_lt ((input.filter isHexDigitChar).getD (2 * i) '0')
      have hv2 := hexDigitVal_lt ((input.filter isHexDigitChar).getD (2 * i + 1) '0')
      rw [List.getD_eq_getElem?_getD, List.getElem?_map, List.getElem?_range hi]
      simp only [Option.map_some', Option.getD_some]
      omega
  · have hfix : (input.filter isHexDigitChar).filter isHexDigitChar =
        input.filter isHexDigitChar := by
      rw [List.filter_filter]
      simp [Bool.and_self]
    unfold sendControlBytes
    rw [hfix]

/-- Witness for C10: the input `D0 0A` (with a separating blank) is sent as
the cleaned digits alone, and a 3-digit input errors. -/
theorem sendControlBytes_contract_witness :
    sendControlBytes ['D', '0', ' ', '0', 'A'] =
      sendControlBytes (['D', '0', ' ', '0', 'A'].filter isHexDigitChar) ∧
    (sendControlBytes ['D', '0', '0'] = .error () ↔
      (['D', '0', '0'].filter isHexDigitChar).length % 2 = 1) :=
  ⟨(sendControlBytes_contract ['D', '0', ' ', '0', 'A']).2.2,
    (sendControlBytes_contract ['D', '0', '0']).1⟩

end PM5
